import Mathlib

/-!
Verification of the companies-house-filing client core: a shallow
embedding of `ch_filing/state.py`, `ch_filing/client.py` and
`ch_filing/envelope.py`, with theorems about the counter store, the
response classifier, the transport error mapping and the envelope
builder.
-/

namespace ChFiling

/-! ## Decimal rendering (Python `str(int)` and `"%05d" %`) -/

/-- Little-endian decimal digit characters of `n`, with explicit fuel
(`fuel > n` suffices, since the digit count of `n` is at most `n + 1`). -/
def natDigitsAux : Nat → Nat → List Char
  | 0, _ => []
  | fuel+1, n =>
    if n < 10 then [Nat.digitChar n]
    else Nat.digitChar (n % 10) :: natDigitsAux fuel (n / 10)

/-- Decimal rendering of a natural number, as Python `str` produces it. -/
def natStr (n : Nat) : String := ⟨(natDigitsAux (n+1) n).reverse⟩

/-- Decimal rendering of an integer, as Python `str` produces it. -/
def intStr (n : Int) : String :=
  if n < 0 then "-" ++ natStr n.natAbs else natStr n.toNat

/-- Python `"%05d" % n`: zero-pad the decimal rendering to width 5
(the sign, when present, counts towards the width). -/
def format05d (n : Int) : String :=
  if n < 0 then
    let s := natStr n.natAbs
    "-" ++ ⟨List.replicate (4 - s.length) '0'⟩ ++ s
  else
    let s := natStr n.toNat
    ⟨List.replicate (5 - s.length) '0'⟩ ++ s

/-- Python `str.zfill(5)` on an unsigned digit string: used to state the
spec-side formatting contract `"S" + str(k+1).zfill(5)`. -/
def zfill5 (s : String) : String :=
  if 5 ≤ s.length then s else ⟨List.replicate (5 - s.length) '0'⟩ ++ s

/-! ## state.py -/

/-- The persisted counter state: the JSON object
`{"transaction-id": <int>, "submission-id": <int>}` of `state.py`. -/
structure StateData where
  transaction_id : Int
  submission_id : Int
deriving Repr, DecidableEq

/-- The configuration mapping (the config-file keys consumed by the
core: `presenter-id`, `authentication`, `url`, `email`, `test-flag`). -/
structure Config where
  presenter_id : String
  authentication : String
  url : String
  email : String
  test_flag : String
deriving Repr, DecidableEq

/-- A `State` object: the parsed configuration together with the
in-memory counters (`self.config` and `self.state` in `state.py`). -/
structure State where
  config : Config
  state : StateData
deriving Repr, DecidableEq

/-- A `State` object together with the contents of its state file on
disk; `file = none` models a missing or unparsable file. -/
structure World where
  st : State
  file : Option StateData
deriving Repr, DecidableEq

/-- `State.load_state`: a missing or unparsable state file yields both
counters zeroed; otherwise the parsed contents are used as is. -/
def load_state (file : Option StateData) : StateData :=
  match file with
  | some s => s
  | none => { transaction_id := 0, submission_id := 0 }

/-- `State.__init__`: reads and parses the config file first (a failure
there propagates: `configFile = none` models an unreadable or
unparsable configuration), then loads the counters from the state file. -/
def State.init (configFile : Option Config) (stateFile : Option StateData) :
    Except Unit World :=
  match configFile with
  | none => Except.error ()
  | some cfg =>
      Except.ok { st := { config := cfg, state := load_state stateFile },
                  file := stateFile }

/-- `State.write`: rewrites the state file with the full counter state. -/
def State.write (w : World) : World := { w with file := some w.st.state }

/-- `State.get_next_tx_id`: increment the transaction counter, persist,
return the new value. -/
def get_next_tx_id (w : World) : Int × World :=
  let s' := { w.st.state with transaction_id := w.st.state.transaction_id + 1 }
  let w' := State.write { w with st := { w.st with state := s' } }
  (w'.st.state.transaction_id, w')

/-- `State.get_cur_tx_id`: read the transaction counter, no mutation. -/
def get_cur_tx_id (w : World) : Int × World :=
  (w.st.state.transaction_id, w)

/-- `State.get_next_submission_id`: increment the submission counter,
persist, return `"S%05d" %` the new value. -/
def get_next_submission_id (w : World) : String × World :=
  let s' := { w.st.state with submission_id := w.st.state.submission_id + 1 }
  let w' := State.write { w with st := { w.st with state := s' } }
  ("S" ++ format05d w'.st.state.submission_id, w')

/-- `State.get_cur_submission_id`: read the submission counter. -/
def get_cur_submission_id (w : World) : Int × World :=
  (w.st.state.submission_id, w)

/-- `State.get`: read-only lookup into the configuration mapping;
unknown keys resolve to `none` (Python `dict.get`). -/
def State.get (w : World) (key : String) : Option String × World :=
  (if key = "presenter-id" then some w.st.config.presenter_id
   else if key = "authentication" then some w.st.config.authentication
   else if key = "url" then some w.st.config.url
   else if key = "email" then some w.st.config.email
   else if key = "test-flag" then some w.st.config.test_flag
   else none, w)

/-- Run `n` successive `get_next_tx_id` calls, collecting the returned
ids in order together with the final world. -/
def run_next_tx : Nat → World → List Int × World
  | 0, w => ([], w)
  | n+1, w =>
    let r := get_next_tx_id w
    let rest := run_next_tx n r.2
    (r.1 :: rest.1, rest.2)

/-- Reconstruction after a simulated restart: a fresh `State` built from
the same configuration and whatever the state file now holds. -/
def reload (cfg : Config) (f : Option StateData) : World :=
  { st := { config := cfg, state := load_state f }, file := f }

/-- A world at given counter values, used for concrete instances. -/
def worldAt (t s : Int) : World :=
  { st := { config := { presenter_id := "p", authentication := "a",
                        url := "u", email := "e", test_flag := "0" },
            state := { transaction_id := t, submission_id := s } },
    file := none }

/-! ## client.py -/

/-- The typed failure conditions of `client.py`, each carrying the
message text it was constructed with. -/
inductive ChError where
  | authenticationFailure (msg : String)
  | suspectedAccountsCorruption (msg : String)
  | suspectedValidationFailure (msg : String)
  | requestFailure (msg : String)
  | privacyFailure (msg : String)
  | xmlSyntaxError (msg : String)
  | runtimeError (msg : String)
deriving Repr, DecidableEq

/-- One `<Error>` entry under `GovTalkDetails/GovTalkErrors`: its
numeric `Number` and free-text `Text` children. -/
structure ErrorEntry where
  number : Int
  text : String
deriving Repr, DecidableEq

/-- A parsed response document, seen through what `review_errors`
inspects: `errors = none` models a document in which the path
`GovTalkDetails/GovTalkErrors/Error` is absent (objectify raises
AttributeError on access); otherwise `errors` lists the `Error` entries
in document order. `rest` stands for the remainder of the document,
untouched by the classifier. -/
structure Doc where
  errors : Option (List ErrorEntry)
  rest : String
deriving Repr, DecidableEq

/-- The possible values of the local variable `err` in
`Client.review_errors`: the initial `None`, the current `Error`
element, or an exception object built from it. -/
inductive ErrVar where
  | pyNone
  | element (e : ErrorEntry)
  | exc (x : ChError)
deriving Repr, DecidableEq

/-- Python attribute access `err.Text`: succeeds when `err` is the XML
element, raises AttributeError (modelled as `Except.error`) when `err`
has already been replaced by an exception object or is `None`. -/
def ErrVar.textAttr : ErrVar → Except Unit String
  | .element e => Except.ok e.text
  | _ => Except.error ()

/-- The body of `review_errors`' `for` loop, run on the first entry
`e`: returns the value of `err` at the moment the loop is left. When
`e.number` is 502 or 9999 the trailing `else` (paired only with the
`errno == 100` test) re-evaluates `err.Text` after `err` has already
been replaced by an exception object; the resulting AttributeError
aborts the loop (it is swallowed by the enclosing bare `except`),
leaving `err` bound to that exception. In every other case the `break`
ends the loop after this first iteration. -/
def reviewLoopBody (e : ErrorEntry) : ErrVar :=
  let errno := e.number
  let err := ErrVar.element e
  let err := if errno = 502 then ErrVar.exc (.authenticationFailure e.text) else err
  let err := if errno = 9999 then ErrVar.exc (.suspectedAccountsCorruption e.text) else err
  if errno = 100 then
    match err.textAttr with
    | Except.ok t => ErrVar.exc (.suspectedValidationFailure t)
    | Except.error _ => err
  else
    match err.textAttr with
    | Except.ok t => ErrVar.exc (.runtimeError t)
    | Except.error _ => err

/-- `Client.review_errors`: when the error path is absent the
AttributeError raised while locating it is swallowed and `err` stays
`None`, so nothing is raised; otherwise only the first entry is
examined and the final `if err: raise err` raises the exception the
loop body produced. Returns the raised exception, or `none` when the
document passes. (The `.element` arm is unreachable: the loop body
always yields an exception on a nonempty entry list.) -/
def review_errors (doc : Doc) : Option ChError :=
  match doc.errors with
  | none => none
  | some [] => none
  | some (e :: _) =>
    match reviewLoopBody e with
    | .exc x => some x
    | .pyNone => none
    | .element _ => none

/-- The outcome of the `requests.post` call inside `Client.call`:
a TLS negotiation failure, any other connection-establishment failure,
or a completed HTTP exchange carrying a status code and a body. The
body is given by its parse result (`Except.error m` models an XML
syntax error raised by `objectify.fromstring`). -/
inductive PostOutcome where
  | sslError (msg : String)
  | connError (msg : String)
  | response (status : Nat) (body : Except String Doc)
deriving Repr

/-- `Client.call` after the envelope has been serialized and posted:
maps transport failures to `PrivacyFailure` / `RequestFailure`
preserving the underlying message, rejects any non-200 status with
`RuntimeError ("Status " ++ code)`, and pipes a parsed 200 response
through `review_errors` before returning it. -/
def Client.call (outcome : PostOutcome) : Except ChError Doc :=
  match outcome with
  | .sslError msg => Except.error (.privacyFailure msg)
  | .connError msg => Except.error (.requestFailure msg)
  | .response status body =>
    if status ≠ 200 then Except.error (.runtimeError ("Status " ++ natStr status))
    else
      match body with
      | Except.error m => Except.error (.xmlSyntaxError m)
      | Except.ok doc =>
        match review_errors doc with
        | some x => Except.error x
        | none => Except.ok doc

/-! ## MD5 (hashlib.md5, as used by envelope.py) -/

/-- Truncation to 32 bits. -/
def w32 (n : Nat) : Nat := n % 4294967296

/-- 32-bit modular addition. -/
def add32 (a b : Nat) : Nat := (a + b) % 4294967296

/-- Combine two numbers bit by bit with `f`, over `fuel` bits. -/
def bitsZip (f : Bool → Bool → Bool) : Nat → Nat → Nat → Nat
  | 0, _, _ => 0
  | fuel+1, a, b =>
    (cond (f (a % 2 == 1) (b % 2 == 1)) 1 0) + 2 * bitsZip f fuel (a / 2) (b / 2)

/-- 32-bit bitwise and. -/
def and32 (a b : Nat) : Nat := bitsZip (fun x y => x && y) 32 a b

/-- 32-bit bitwise or. -/
def or32 (a b : Nat) : Nat := bitsZip (fun x y => x || y) 32 a b

/-- 32-bit bitwise exclusive or. -/
def xor32 (a b : Nat) : Nat := bitsZip (fun x y => x != y) 32 a b

/-- 32-bit bitwise complement. -/
def not32 (a : Nat) : Nat := 4294967295 - w32 a

/-- 32-bit left rotation by `s` (for `0 < s < 32`): the shifted-out high
bits reappear at the bottom; the two parts occupy disjoint bit ranges,
so plain addition realises their union. -/
def rotl32 (x s : Nat) : Nat := w32 (x * 2 ^ s) + w32 x / 2 ^ (32 - s)

/-- MD5 round function F. -/
def mdF (b c d : Nat) : Nat := or32 (and32 b c) (and32 (not32 b) d)

/-- MD5 round function G. -/
def mdG (b c d : Nat) : Nat := or32 (and32 d b) (and32 (not32 d) c)

/-- MD5 round function H. -/
def mdH (b c d : Nat) : Nat := xor32 b (xor32 c d)

/-- MD5 round function I. -/
def mdI (b c d : Nat) : Nat := xor32 c (or32 b (not32 d))

/-- The MD5 sine-derived constant table (RFC 1321's T[1..64]). -/
def mdK : List Nat :=
  [0xd76aa478, 0xe8c7b756, 0x242070db, 0xc1bdceee,
   0xf57c0faf, 0x4787c62a, 0xa8304613, 0xfd469501,
   0x698098d8, 0x8b44f7af, 0xffff5bb1, 0x895cd7be,
   0x6b901122, 0xfd987193, 0xa679438e, 0x49b40821,
   0xf61e2562, 0xc040b340, 0x265e5a51, 0xe9b6c7aa,
   0xd62f105d, 0x02441453, 0xd8a1e681, 0xe7d3fbc8,
   0x21e1cde6, 0xc33707d6, 0xf4d50d87, 0x455a14ed,
   0xa9e3e905, 0xfcefa3f8, 0x676f02d9, 0x8d2a4c8a,
   0xfffa3942, 0x8771f681, 0x6d9d6122, 0xfde5380c,
   0xa4beea44, 0x4bdecfa9, 0xf6bb4b60, 0xbebfbc70,
   0x289b7ec6, 0xeaa127fa, 0xd4ef3085, 0x04881d05,
   0xd9d4d039, 0xe6db99e5, 0x1fa27cf8, 0xc4ac5665,
   0xf4292244, 0x432aff97, 0xab9423a7, 0xfc93a039,
   0x655b59c3, 0x8f0ccc92, 0xffeff47d, 0x85845dd1,
   0x6fa87e4f, 0xfe2ce6e0, 0xa3014314, 0x4e0811a1,
   0xf7537e82, 0xbd3af235, 0x2ad7d2bb, 0xeb86d391]

/-- The MD5 per-round left-rotation amounts. -/
def mdS : List Nat :=
  [7, 12, 17, 22, 7, 12, 17, 22, 7, 12, 17, 22, 7, 12, 17, 22,
   5, 9, 14, 20, 5, 9, 14, 20, 5, 9, 14, 20, 5, 9, 14, 20,
   4, 11, 16, 23, 4, 11, 16, 23, 4, 11, 16, 23, 4, 11, 16, 23,
   6, 10, 15, 21, 6, 10, 15, 21, 6, 10, 15, 21, 6, 10, 15, 21]

/-- One MD5 round `i` (0-based) on state `(a, b, c, d)` with the
16-word message block `M`. -/
def mdRound (M : List Nat) (i : Nat) (st : Nat × Nat × Nat × Nat) :
    Nat × Nat × Nat × Nat :=
  let a := st.1
  let b := st.2.1
  let c := st.2.2.1
  let d := st.2.2.2
  let f := if i < 16 then mdF b c d
           else if i < 32 then mdG b c d
           else if i < 48 then mdH b c d
           else mdI b c d
  let g := if i < 16 then i
           else if i < 32 then (5 * i + 1) % 16
           else if i < 48 then (3 * i + 5) % 16
           else (7 * i) % 16
  let tmp := add32 (add32 (add32 a f) (mdK.getD i 0)) (M.getD g 0)
  (d, add32 b (rotl32 tmp (mdS.getD i 0)), b, c)

/-- Process one 16-word block: 64 rounds, then add the block result
into the running state. -/
def mdProcessBlock (st : Nat × Nat × Nat × Nat) (M : List Nat) :
    Nat × Nat × Nat × Nat :=
  let r := (List.range 64).foldl (fun s i => mdRound M i s) st
  (add32 st.1 r.1, add32 st.2.1 r.2.1, add32 st.2.2.1 r.2.2.1,
   add32 st.2.2.2 r.2.2.2)

/-- Group a little-endian byte list into 32-bit words (the byte count
is a multiple of 4 after padding). -/
def toWordsLE : List Nat → List Nat
  | b0 :: b1 :: b2 :: b3 :: rest =>
    (b0 + 256 * (b1 + 256 * (b2 + 256 * b3))) :: toWordsLE rest
  | _ => []

/-- Process successive 16-word blocks (the word count is a multiple of
16 after padding). -/
def mdBlocks : Nat × Nat × Nat × Nat → List Nat → Nat × Nat × Nat × Nat
  | st, w0 :: w1 :: w2 :: w3 :: w4 :: w5 :: w6 :: w7 ::
        w8 :: w9 :: w10 :: w11 :: w12 :: w13 :: w14 :: w15 :: rest =>
    mdBlocks (mdProcessBlock st
      [w0, w1, w2, w3, w4, w5, w6, w7, w8, w9, w10, w11, w12, w13, w14, w15])
      rest
  | st, _ => st

/-- The 8 little-endian bytes of the 64-bit message bit length. -/
def lenBytesLE (bitLen : Nat) : List Nat :=
  [bitLen % 256, bitLen / 256 % 256, bitLen / 65536 % 256,
   bitLen / 16777216 % 256, bitLen / 4294967296 % 256,
   bitLen / 1099511627776 % 256, bitLen / 281474976710656 % 256,
   bitLen / 72057594037927936 % 256]

/-- MD5 padding: a 0x80 byte, zeros up to 56 mod 64, then the bit
length as 8 little-endian bytes. -/
def padBytes (msg : List Nat) : List Nat :=
  msg ++ 128 :: List.replicate ((120 - (msg.length + 1) % 64) % 64) 0
      ++ lenBytesLE (8 * msg.length % 18446744073709551616)

/-- The 4 little-endian bytes of a 32-bit word. -/
def wordBytesLE (w : Nat) : List Nat :=
  [w % 256, w / 256 % 256, w / 65536 % 256, w / 16777216 % 256]

/-- MD5 digest of a byte string: 16 output bytes. -/
def md5Digest (msg : List Nat) : List Nat :=
  let r := mdBlocks (0x67452301, 0xefcdab89, 0x98badcfe, 0x10325476)
      (toWordsLE (padBytes msg))
  wordBytesLE r.1 ++ wordBytesLE r.2.1 ++ wordBytesLE r.2.2.1
    ++ wordBytesLE r.2.2.2

/-- Two lowercase hex characters of a byte. -/
def hexByte (b : Nat) : List Char := [Nat.digitChar (b / 16), Nat.digitChar (b % 16)]

/-- Lowercase hex string of a byte list. -/
def toHexStr (bytes : List Nat) : String := ⟨bytes.flatMap hexByte⟩

/-- UTF-8 encoding of one character. -/
def charUtf8 (c : Char) : List Nat :=
  let n := c.toNat
  if n < 128 then [n]
  else if n < 2048 then [192 + n / 64, 128 + n % 64]
  else if n < 65536 then [224 + n / 4096, 128 + n / 64 % 64, 128 + n % 64]
  else [240 + n / 262144, 128 + n / 4096 % 64, 128 + n / 64 % 64, 128 + n % 64]

/-- UTF-8 bytes of a string (Python `s.encode("utf-8")`). -/
def strUtf8 (s : String) : List Nat := s.data.flatMap charUtf8

/-- `hashlib.md5(s.encode("utf-8")).hexdigest()`. -/
def md5hex (s : String) : String := toHexStr (md5Digest (strUtf8 s))

/-! ## envelope.py -/

/-- The envelope tree built by `Envelope.create`. Its shape is fixed by
the source — only the leaf texts vary — so the record holds the leaves
(`class` being a reserved word, that leaf is called `msgClass`). -/
structure GovTalkMessage where
  envelopeVersion : String
  msgClass : String
  qualifier : String
  transactionID : Int
  gatewayTest : String
  senderID : String
  authMethod : String
  authValue : String
  emailAddress : String
  body : String
deriving Repr, DecidableEq

/-- `Envelope.create`: reads the presenter id and authentication token
from configuration and hashes each with MD5, allocates one fresh
transaction id from the counter store (the one mutation), and builds
the fixed envelope shape. `content` stands for the serialized body
payload supplied by the caller. -/
def Envelope.create (w : World) (content cls qualifier : String) :
    GovTalkMessage × World :=
  let pres_hash := md5hex w.st.config.presenter_id
  let auth_hash := md5hex w.st.config.authentication
  let r := get_next_tx_id w
  ({ envelopeVersion := "1.0"
     msgClass := cls
     qualifier := qualifier
     transactionID := r.1
     gatewayTest := w.st.config.test_flag
     senderID := pres_hash
     authMethod := "clear"
     authValue := auth_hash
     emailAddress := w.st.config.email
     body := content }, r.2)

/-- Serialize one element with a text child. -/
def xmlElem (tag inner : String) : String :=
  "<" ++ tag ++ ">" ++ inner ++ "</" ++ tag ++ ">"

/-- Serialization of the fixed envelope shape
(`etree.tostring(..., xml_declaration=True)` on the created tree): the
markup is constant text, with the leaf values interpolated. -/
def serializeEnvelope (m : GovTalkMessage) : String :=
  "<?xml version=\"1.0\" encoding=\"UTF-8\"?>"
  ++ "<GovTalkMessage xmlns=\"http://www.govtalk.gov.uk/CM/envelope\""
  ++ " xsi:schemaLocation=\"http://www.govtalk.gov.uk/CM/envelope"
  ++ " http://xmlgw.companieshouse.gov.uk/v2-1/schema/Egov_ch-v2-0.xsd\">"
  ++ xmlElem "EnvelopeVersion" m.envelopeVersion
  ++ xmlElem "Header"
      (xmlElem "MessageDetails"
        (xmlElem "Class" m.msgClass
         ++ xmlElem "Qualifier" m.qualifier
         ++ xmlElem "TransactionID" (intStr m.transactionID)
         ++ xmlElem "GatewayTest" m.gatewayTest)
       ++ xmlElem "SenderDetails"
        (xmlElem "IDAuthentication"
          (xmlElem "SenderID" m.senderID
           ++ xmlElem "Authentication"
              (xmlElem "Method" m.authMethod ++ xmlElem "Value" m.authValue))
         ++ xmlElem "EmailAddress" m.emailAddress))
  ++ xmlElem "GovTalkDetails" "<Keys/>"
  ++ xmlElem "Body" m.body
  ++ "</GovTalkMessage>"

/-- Boolean list-prefix test. -/
def listIsPrefixOf : List Char → List Char → Bool
  | [], _ => true
  | _ :: _, [] => false
  | a :: as, b :: bs => a == b && listIsPrefixOf as bs

/-- `hasSub pat hay`: does `pat` occur as a contiguous sublist of
`hay`? -/
def hasSub (pat : List Char) : List Char → Bool
  | [] => listIsPrefixOf pat []
  | c :: rest => listIsPrefixOf pat (c :: rest) || hasSub pat rest

/-- `pat` occurs as a contiguous substring of `hay`. -/
def strHasSub (hay pat : String) : Bool := hasSub pat.data hay.data

/-- The envelope serialization as a function of the two digests and the
non-credential inputs only: used to state that the plaintext
credentials influence the serialized text solely through their MD5
digests. -/
def envelopeTextOfDigests (presHash authHash gatewayTest email : String)
    (tx : Int) (content cls qualifier : String) : String :=
  serializeEnvelope
    { envelopeVersion := "1.0", msgClass := cls, qualifier := qualifier,
      transactionID := tx, gatewayTest := gatewayTest, senderID := presHash,
      authMethod := "clear", authValue := authHash, emailAddress := email,
      body := content }

/-- A concrete configuration whose presenter id happens to coincide
with the fixed `<Method>clear</Method>` text of the envelope. -/
def cexConfig : Config :=
  { presenter_id := "clear", authentication := "secret99",
    url := "http://x", email := "e@x", test_flag := "1" }

/-- A concrete world for the credential-disclosure counterexample. -/
def cexWorld : World :=
  { st := { config := cexConfig,
            state := { transaction_id := 0, submission_id := 0 } },
    file := none }

/-! ## Lemmas about decimal rendering -/

theorem natDigitsAux_length_ge : ∀ (k fuel n : Nat), 10 ^ k ≤ n → n < fuel →
    k + 1 ≤ (natDigitsAux fuel n).length := by
  intro k
  induction k with
  | zero =>
    intro fuel n h hf
    cases fuel with
    | zero => omega
    | succ f =>
      simp only [natDigitsAux]
      split <;> simp
  | succ k ih =>
    intro fuel n h hf
    cases fuel with
    | zero => omega
    | succ f =>
      have hpow : 10 ≤ 10 ^ (k + 1) := by
        calc 10 = 10 ^ 1 := by norm_num
        _ ≤ 10 ^ (k + 1) := Nat.pow_le_pow_right (by norm_num) (by omega)
      have h10 : ¬ n < 10 := by omega
      simp only [natDigitsAux, if_neg h10, List.length_cons]
      have hdiv : 10 ^ k ≤ n / 10 := by
        rw [Nat.le_div_iff_mul_le (by norm_num)]
        calc 10 ^ k * 10 = 10 ^ (k + 1) := by ring
        _ ≤ n := h
      have hfd : n / 10 < f := by
        have := Nat.div_lt_self (show 0 < n by omega) (show 1 < 10 by norm_num)
        omega
      have := ih f (n / 10) hdiv hfd
      omega

theorem natDigitsAux_length_le : ∀ (k fuel n : Nat), n < 10 ^ (k + 1) →
    (natDigitsAux fuel n).length ≤ k + 1 := by
  intro k
  induction k with
  | zero =>
    intro fuel n h
    cases fuel with
    | zero => simp [natDigitsAux]
    | succ f =>
      have : n < 10 := by simpa using h
      simp [natDigitsAux, this]
  | succ k ih =>
    intro fuel n h
    cases fuel with
    | zero => simp [natDigitsAux]
    | succ f =>
      simp only [natDigitsAux]
      split
      · simp
      · simp only [List.length_cons]
        have hdiv : n / 10 < 10 ^ (k + 1) := by
          rw [Nat.div_lt_iff_lt_mul (by norm_num)]
          calc n < 10 ^ (k + 2) := h
          _ = 10 ^ (k + 1) * 10 := by ring
        have := ih f (n / 10) hdiv
        omega

theorem natStr_length_ge (k n : Nat) (h : 10 ^ k ≤ n) :
    k + 1 ≤ (natStr n).length := by
  have := natDigitsAux_length_ge k (n + 1) n h (by omega)
  simpa [natStr] using this

theorem natStr_length_le (k n : Nat) (h : n < 10 ^ (k + 1)) :
    (natStr n).length ≤ k + 1 := by
  have := natDigitsAux_length_le k (n + 1) n h
  simpa [natStr] using this

theorem natStr_length_pos (n : Nat) : 1 ≤ (natStr n).length := by
  cases n with
  | zero => decide
  | succ m =>
    have := natDigitsAux_length_ge 0 (m + 2) (m + 1) (by omega) (by omega)
    simpa [natStr] using this

theorem natStr_length_mono (m n : Nat) (h : m ≤ n) :
    (natStr m).length ≤ (natStr n).length := by
  by_contra hc
  push_neg at hc
  have hL1 : 1 ≤ (natStr n).length := natStr_length_pos n
  obtain ⟨j, hj⟩ : ∃ j, (natStr n).length = j + 1 :=
    ⟨(natStr n).length - 1, by omega⟩
  have hm : 10 ^ (j + 1) ≤ m := by
    by_contra hm
    push_neg at hm
    have := natStr_length_le j m hm
    omega
  have hn : n < 10 ^ (j + 1) := by
    by_contra hn
    push_neg at hn
    have := natStr_length_ge (j + 1) n hn
    omega
  omega

theorem format05d_eq_zfill5 (n : Int) (h : 0 ≤ n) :
    format05d n = zfill5 (intStr n) := by
  have hneg : ¬ n < 0 := by omega
  simp only [format05d, intStr, if_neg hneg, zfill5]
  split
  · rename_i hlen
    have : 5 - (natStr n.toNat).length = 0 := by omega
    rw [this]
    show String.mk ([] ++ (natStr n.toNat).data) = natStr n.toNat
    simp
  · rfl

/-! ## Lemmas about the transaction-id run -/

theorem run_next_tx_spec (n : Nat) : ∀ (w : World),
    (run_next_tx n w).1 =
      (List.range n).map (fun i : Nat => w.st.state.transaction_id + 1 + (i : Int))
  ∧ (run_next_tx n w).2.st.state =
      { transaction_id := w.st.state.transaction_id + n,
        submission_id := w.st.state.submission_id }
  ∧ (run_next_tx n w).2.st.config = w.st.config
  ∧ (0 < n → (run_next_tx n w).2.file = some (run_next_tx n w).2.st.state)
  ∧ (n = 0 → (run_next_tx n w).2 = w) := by
  induction n with
  | zero =>
    intro w
    refine ⟨by simp [run_next_tx], ?_, rfl, by omega, fun _ => rfl⟩
    simp [run_next_tx]
  | succ n ih =>
    intro w
    obtain ⟨h1, h2, h3, h4, h5⟩ := ih (get_next_tx_id w).2
    have hw' : (get_next_tx_id w).2.st.state.transaction_id =
        w.st.state.transaction_id + 1 := rfl
    have hw's : (get_next_tx_id w).2.st.state.submission_id =
        w.st.state.submission_id := rfl
    refine ⟨?_, ?_, ?_, ?_, by omega⟩
    · have hv : (get_next_tx_id w).1 = w.st.state.transaction_id + 1 := rfl
      show (get_next_tx_id w).1 :: (run_next_tx n (get_next_tx_id w).2).1 = _
      rw [h1, hw', hv, List.range_succ_eq_map, List.map_cons, List.map_map]
      congr 1
      · push_cast
        ring
      · congr 1
        funext i
        simp only [Function.comp]
        push_cast
        ring
    · show (run_next_tx n (get_next_tx_id w).2).2.st.state = _
      rw [h2, hw', hw's]
      congr 1
      push_cast
      ring
    · show (run_next_tx n (get_next_tx_id w).2).2.st.config = _
      rw [h3]; rfl
    · intro _
      show (run_next_tx n (get_next_tx_id w).2).2.file = _
      rcases Nat.eq_zero_or_pos n with hn | hn
      · subst hn
        rw [h5 rfl]
        rfl
      · exact h4 hn

/-! ## Claim theorems about state.py -/

/-- C2: `N` successive `get_next_tx_id` calls on a store whose counter
is `c` return exactly `c+1, c+2, …, c+N` in order; each call persists
the new counter state — whose transaction id is the value returned —
to the backing store before returning; and a store reconstructed from
the persisted file reports `get_cur_tx_id` equal to the last value
returned before the restart. -/
theorem tx_counter_monotonic_persistent (w : World) (cfg : Config) (N : Nat)
    (hN : 0 < N) :
    (run_next_tx N w).1 =
      (List.range N).map (fun i : Nat => w.st.state.transaction_id + 1 + (i : Int))
  ∧ (get_next_tx_id w).1 = w.st.state.transaction_id + 1
  ∧ (get_next_tx_id w).2.file = some (get_next_tx_id w).2.st.state
  ∧ (get_next_tx_id w).2.st.state.transaction_id = (get_next_tx_id w).1
  ∧ (run_next_tx N w).1.getLastD 0 = w.st.state.transaction_id + N
  ∧ (run_next_tx N w).2.file = some (run_next_tx N w).2.st.state
  ∧ State.init (some cfg) (run_next_tx N w).2.file =
      Except.ok (reload cfg (run_next_tx N w).2.file)
  ∧ (get_cur_tx_id (reload cfg (run_next_tx N w).2.file)).1 =
      (run_next_tx N w).1.getLastD 0 := by
  obtain ⟨h1, h2, h3, h4, h5⟩ := run_next_tx_spec N w
  have hlast : (run_next_tx N w).1.getLastD 0 =
      w.st.state.transaction_id + N := by
    obtain ⟨M, rfl⟩ : ∃ M, N = M + 1 := ⟨N - 1, by omega⟩
    rw [h1, List.range_succ, List.map_append, List.map_cons, List.map_nil,
      List.getLastD_concat]
    push_cast
    ring
  refine ⟨h1, rfl, rfl, rfl, hlast, h4 hN, rfl, ?_⟩
  rw [h4 hN, hlast]
  show (load_state (some (run_next_tx N w).2.st.state)).transaction_id = _
  rw [show load_state (some (run_next_tx N w).2.st.state) =
      (run_next_tx N w).2.st.state from rfl, h2]

/-- Witness for the C2 theorem at a concrete store and `N = 2`. -/
theorem tx_counter_monotonic_persistent_witness :
    (0 : Nat) < 2
  ∧ (run_next_tx 2 (worldAt 5 3)).1.getLastD 0 =
      (worldAt 5 3).st.state.transaction_id + (2 : Nat) :=
  ⟨by decide, (tx_counter_monotonic_persistent (worldAt 5 3)
      (worldAt 5 3).st.config 2 (by decide)).2.2.2.2.1⟩

/-- C6: `get_next_submission_id` increments the submission counter,
persists it, and returns `"S"` followed by the decimal of the new value
zero-padded to five digits (Python `"S" + str(k+1).zfill(5)`); from a
zero counter the first call returns `"S00001"`. -/
theorem submission_id_format (w : World) (h : 0 ≤ w.st.state.submission_id) :
    (get_next_submission_id w).1 =
      "S" ++ zfill5 (intStr (w.st.state.submission_id + 1))
  ∧ (get_next_submission_id w).2.st.state.submission_id =
      w.st.state.submission_id + 1
  ∧ (get_next_submission_id w).2.file =
      some (get_next_submission_id w).2.st.state
  ∧ (get_next_submission_id (worldAt 0 0)).1 = "S00001" := by
  refine ⟨?_, rfl, rfl, by decide⟩
  show "S" ++ format05d (w.st.state.submission_id + 1) = _
  rw [format05d_eq_zfill5 _ (by omega)]

/-- Witness for the C6 theorem at a zero counter. -/
theorem submission_id_format_witness :
    0 ≤ (worldAt 0 0).st.state.submission_id
  ∧ (get_next_submission_id (worldAt 0 0)).1 =
      "S" ++ zfill5 (intStr ((worldAt 0 0).st.state.submission_id + 1)) :=
  ⟨by decide, (submission_id_format (worldAt 0 0) (by decide)).1⟩

/-- C9: at counters of 99999 and above the five-digit zero padding no
longer applies: the call returns `"S"` followed by the full decimal of
`k+1` with no truncation and no padding, the call after `"S99999"`
returns the 7-character `"S100000"`, and the identifier width is
monotone in the counter. -/
theorem submission_id_width_growth (w w₂ : World)
    (h : 99999 ≤ w.st.state.submission_id)
    (h₂ : w.st.state.submission_id ≤ w₂.st.state.submission_id) :
    (get_next_submission_id w).1 =
      "S" ++ intStr (w.st.state.submission_id + 1)
  ∧ (get_next_submission_id w).1.length =
      1 + (intStr (w.st.state.submission_id + 1)).length
  ∧ (get_next_submission_id w).1.length ≤ (get_next_submission_id w₂).1.length
  ∧ (get_next_submission_id (worldAt 0 99999)).1 = "S100000"
  ∧ (get_next_submission_id (worldAt 0 99999)).1.length = 7 := by
  have key : ∀ v : Int, 100000 ≤ v →
      format05d v = intStr v ∧ 6 ≤ (intStr v).length := by
    intro v hv
    have hv0 : ¬ v < 0 := by omega
    have hp : (10 : Nat) ^ 5 ≤ v.toNat := by
      calc (10 : Nat) ^ 5 = 100000 := by norm_num
      _ ≤ v.toNat := by omega
    have hlen : 6 ≤ (natStr v.toNat).length := natStr_length_ge 5 v.toNat hp
    constructor
    · simp only [format05d, intStr, if_neg hv0]
      have hz : 5 - (natStr v.toNat).length = 0 := by omega
      rw [hz]
      show String.mk ([] ++ (natStr v.toNat).data) = natStr v.toNat
      simp
    · simpa [intStr, if_neg hv0] using hlen
  have e1 := (key (w.st.state.submission_id + 1) (by omega)).1
  have e2 := (key (w₂.st.state.submission_id + 1) (by omega)).1
  refine ⟨?_, ?_, ?_, by decide, by decide⟩
  · show "S" ++ format05d (w.st.state.submission_id + 1) = _
    rw [e1]
  · show ("S" ++ format05d (w.st.state.submission_id + 1)).length = _
    rw [e1, String.length_append]
    rfl
  · show ("S" ++ format05d (w.st.state.submission_id + 1)).length ≤
        ("S" ++ format05d (w₂.st.state.submission_id + 1)).length
    rw [e1, e2, String.length_append, String.length_append]
    have hv0 : ¬ (w.st.state.submission_id + 1) < 0 := by omega
    have hv0' : ¬ (w₂.st.state.submission_id + 1) < 0 := by omega
    have : (intStr (w.st.state.submission_id + 1)).length ≤
        (intStr (w₂.st.state.submission_id + 1)).length := by
      simp only [intStr, if_neg hv0, if_neg hv0']
      exact natStr_length_mono _ _ (by omega)
    omega

/-- Witness for the C9 theorem at counter 99999. -/
theorem submission_id_width_growth_witness :
    (99999 : Int) ≤ (worldAt 0 99999).st.state.submission_id
  ∧ (worldAt 0 99999).st.state.submission_id ≤
      (worldAt 0 100005).st.state.submission_id
  ∧ (get_next_submission_id (worldAt 0 99999)).1 =
      "S" ++ intStr ((worldAt 0 99999).st.state.submission_id + 1) :=
  ⟨by decide, by decide, (submission_id_width_growth (worldAt 0 99999)
      (worldAt 0 100005) (by decide) (by decide)).1⟩

/-- C7: construction propagates a failure when the configuration file
cannot be read or parsed; a missing or unparsable counter file is not
an error — both counters are initialized to 0 and the store is usable
(reads and increments work). -/
theorem state_init_failure_semantics (cfg : Config) (f : Option StateData)
    (s : StateData) :
    State.init none f = Except.error ()
  ∧ State.init (some cfg) none =
      Except.ok { st := { config := cfg,
                          state := { transaction_id := 0, submission_id := 0 } },
                  file := none }
  ∧ (get_cur_tx_id (reload cfg none)).1 = 0
  ∧ (get_cur_submission_id (reload cfg none)).1 = 0
  ∧ (get_next_tx_id (reload cfg none)).1 = 1
  ∧ State.init (some cfg) (some s) = Except.ok (reload cfg (some s)) :=
  ⟨rfl, rfl, rfl, rfl, rfl, rfl⟩

/-- C10: each counter mutation touches only its own counter while
rewriting the whole persisted file with both values; the read
operations (`get`, `get_cur_tx_id`, `get_cur_submission_id`) leave the
counters, the configuration and the file entirely unchanged. -/
theorem state_frame_conditions (w : World) (key : String) :
    (get_next_tx_id w).2.st.state.submission_id = w.st.state.submission_id
  ∧ (get_next_tx_id w).2.st.config = w.st.config
  ∧ (get_next_tx_id w).2.file = some (get_next_tx_id w).2.st.state
  ∧ (get_next_submission_id w).2.st.state.transaction_id =
      w.st.state.transaction_id
  ∧ (get_next_submission_id w).2.st.config = w.st.config
  ∧ (get_next_submission_id w).2.file =
      some (get_next_submission_id w).2.st.state
  ∧ (State.get w key).2 = w
  ∧ (get_cur_tx_id w).2 = w
  ∧ (get_cur_submission_id w).2 = w :=
  ⟨rfl, rfl, rfl, rfl, rfl, rfl, rfl, rfl, rfl⟩

/-! ## Claim theorems about client.py -/

/-- C1: classification table of `review_errors`: a first entry with
code 502 raises `AuthenticationFailure` carrying the entry's text, 9999
raises `SuspectedAccountsCorruption`, 100 raises
`SuspectedValidationFailure`, any other code raises a generic
`RuntimeError` whose message equals the error text; a document with no
entries under `GovTalkDetails/GovTalkErrors/Error` passes through
unchanged with nothing raised. -/
theorem review_errors_classification (t r : String) (n : Int)
    (hn : n ≠ 502 ∧ n ≠ 9999 ∧ n ≠ 100) :
    review_errors { errors := some [{ number := 502, text := t }], rest := r } =
      some (.authenticationFailure t)
  ∧ review_errors { errors := some [{ number := 9999, text := t }], rest := r } =
      some (.suspectedAccountsCorruption t)
  ∧ review_errors { errors := some [{ number := 100, text := t }], rest := r } =
      some (.suspectedValidationFailure t)
  ∧ review_errors { errors := some [{ number := n, text := t }], rest := r } =
      some (.runtimeError t)
  ∧ review_errors { errors := none, rest := r } = none
  ∧ review_errors { errors := some [], rest := r } = none
  ∧ Client.call (.response 200 (Except.ok { errors := none, rest := r })) =
      Except.ok { errors := none, rest := r } := by
  refine ⟨rfl, rfl, rfl, ?_, rfl, rfl, rfl⟩
  simp [review_errors, reviewLoopBody, ErrVar.textAttr, hn.1, hn.2.1, hn.2.2]

/-- Witness for the C1 theorem at code 418. -/
theorem review_errors_classification_witness :
    ((418 : Int) ≠ 502 ∧ (418 : Int) ≠ 9999 ∧ (418 : Int) ≠ 100)
  ∧ review_errors
      { errors := some [{ number := 418, text := "teapot" }], rest := "" } =
      some (.runtimeError "teapot") :=
  ⟨by decide,
   (review_errors_classification "teapot" "" 418 (by decide)).2.2.2.1⟩

/-- C3: with two or more entries only the first (in document order) is
classified: the result on `e :: es` equals the result on `[e]` alone,
and in particular codes 502-then-100 raise `AuthenticationFailure` for
the first entry and never `SuspectedValidationFailure` for the second. -/
theorem review_errors_first_error_wins (e : ErrorEntry) (es rest : List ErrorEntry)
    (t₁ t₂ r : String) :
    review_errors { errors := some (e :: es), rest := r } =
      review_errors { errors := some [e], rest := r }
  ∧ review_errors { errors := some ({ number := 502, text := t₁ } ::
        { number := 100, text := t₂ } :: rest), rest := r } =
      some (.authenticationFailure t₁)
  ∧ review_errors { errors := some ({ number := 502, text := t₁ } ::
        { number := 100, text := t₂ } :: rest), rest := r } ≠
      some (.suspectedValidationFailure t₂) := by
  refine ⟨rfl, rfl, ?_⟩
  simp [review_errors, reviewLoopBody, ErrVar.textAttr]

/-- C4: the transport mapping of `Client.call`: a TLS failure raises
`PrivacyFailure` with the underlying message, any other
connection-establishment failure raises `RequestFailure` with the
underlying message, a completed exchange with a non-200 status raises
`RuntimeError ("Status " ++ code)` without touching the body, and only
a 200 response is parsed and piped through `review_errors`. -/
theorem call_transport_mapping (msg : String) (status : Nat)
    (body : Except String Doc) (d : Doc) (h : status ≠ 200) :
    Client.call (.sslError msg) = Except.error (.privacyFailure msg)
  ∧ Client.call (.connError msg) = Except.error (.requestFailure msg)
  ∧ Client.call (.response status body) =
      Except.error (.runtimeError ("Status " ++ natStr status))
  ∧ Client.call (.response 503 body) =
      Except.error (.runtimeError "Status 503")
  ∧ Client.call (.response 200 (Except.ok d)) =
      (match review_errors d with
       | some x => Except.error x
       | none => Except.ok d) := by
  refine ⟨rfl, rfl, ?_, ?_, ?_⟩
  · simp [Client.call, h]
  · have h503 : Client.call (.response 503 body) =
        Except.error (.runtimeError ("Status " ++ natStr 503)) := by
      simp [Client.call]
    rw [h503]
    rfl
  · simp [Client.call]

/-- Witness for the C4 theorem at status 503. -/
theorem call_transport_mapping_witness :
    (503 : Nat) ≠ 200
  ∧ Client.call (.response 503 (Except.ok { errors := none, rest := "" })) =
      Except.error (.runtimeError ("Status " ++ natStr 503)) :=
  ⟨by decide,
   (call_transport_mapping "x" 503 (Except.ok { errors := none, rest := "" })
      { errors := none, rest := "" } (by decide)).2.2.1⟩

/-! ## Substring lemmas -/

theorem listIsPrefixOf_append (p b : List Char) :
    listIsPrefixOf p (p ++ b) = true := by
  induction p with
  | nil => rfl
  | cons a as ih => simp [listIsPrefixOf, ih]

theorem hasSub_here (p b : List Char) : hasSub p (p ++ b) = true := by
  cases p with
  | nil => cases b <;> simp [hasSub, listIsPrefixOf]
  | cons a as =>
    have hp := listIsPrefixOf_append (a :: as) b
    simp only [List.cons_append] at hp
    simp [hasSub, hp]

theorem hasSub_append_right (p b a : List Char) (h : hasSub p b = true) :
    hasSub p (a ++ b) = true := by
  induction a with
  | nil => simpa using h
  | cons c cs ih => simp [hasSub, ih]

/-! ## Claim theorems about envelope.py -/

set_option maxRecDepth 400000 in
/-- Counterexample to C5 as stated: with the (non-empty) presenter id
`"clear"`, the serialized envelope does contain the plaintext presenter
id as a substring — it coincides with the fixed
`<Method>clear</Method>` text — and this occurrence is not a hash
collision: the plaintext is a substring of neither of the two embedded
digests. -/
theorem credential_plaintext_cex :
    strHasSub (serializeEnvelope (Envelope.create cexWorld "body" "C" "request").1)
      cexConfig.presenter_id = true
  ∧ strHasSub (md5hex cexConfig.presenter_id) cexConfig.presenter_id = false
  ∧ strHasSub (md5hex cexConfig.authentication) cexConfig.presenter_id = false
  ∧ cexConfig.presenter_id ≠ "" :=
  ⟨by decide, by decide, by decide, by decide⟩

/-- C5 amended: the serialized envelope embeds `md5(presenter_id)` as
SenderID and `md5(auth_token)` as the Authentication Value and contains
both digests as substrings; the plaintext credentials influence the
serialized text only through their MD5 digests (it is a function of the
digests and the non-credential fields alone) — but the plaintext may
still appear as a substring when it coincides with other envelope text,
as in the counterexample, not only through hash collisions. -/
theorem credential_digest_embedding (w : World) (content cls q : String) :
    serializeEnvelope (Envelope.create w content cls q).1 =
      envelopeTextOfDigests (md5hex w.st.config.presenter_id)
        (md5hex w.st.config.authentication) w.st.config.test_flag
        w.st.config.email (w.st.state.transaction_id + 1) content cls q
  ∧ (Envelope.create w content cls q).1.senderID =
      md5hex w.st.config.presenter_id
  ∧ (Envelope.create w content cls q).1.authValue =
      md5hex w.st.config.authentication
  ∧ strHasSub (serializeEnvelope (Envelope.create w content cls q).1)
      (md5hex w.st.config.presenter_id) = true
  ∧ strHasSub (serializeEnvelope (Envelope.create w content cls q).1)
      (md5hex w.st.config.authentication) = true := by
  have h1 : serializeEnvelope (Envelope.create w content cls q).1 =
      envelopeTextOfDigests (md5hex w.st.config.presenter_id)
        (md5hex w.st.config.authentication) w.st.config.test_flag
        w.st.config.email (w.st.state.transaction_id + 1) content cls q := rfl
  refine ⟨h1, rfl, rfl, ?_, ?_⟩
  all_goals rw [h1]
  all_goals simp only [strHasSub, envelopeTextOfDigests, serializeEnvelope,
    xmlElem, String.data_append, List.append_assoc]
  all_goals repeat (first
    | exact hasSub_here _ _
    | apply hasSub_append_right)

/-- C8: every `Envelope.create` call allocates exactly one fresh
transaction id — the counter moves by exactly one, is persisted, and
the new value is stamped as the envelope's TransactionID — and the
side effect is not idempotent: a second call with identical arguments
yields a distinct (incremented) transaction id. -/
theorem envelope_create_fresh_tx (w : World) (content cls q : String) :
    (Envelope.create w content cls q).1.transactionID =
      w.st.state.transaction_id + 1
  ∧ (Envelope.create w content cls q).2.st.state.transaction_id =
      w.st.state.transaction_id + 1
  ∧ (Envelope.create w content cls q).2.file =
      some (Envelope.create w content cls q).2.st.state
  ∧ (Envelope.create w content cls q).2.st.state.submission_id =
      w.st.state.submission_id
  ∧ (Envelope.create (Envelope.create w content cls q).2 content cls q).1.transactionID =
      w.st.state.transaction_id + 2
  ∧ (Envelope.create (Envelope.create w content cls q).2 content cls q).1.transactionID ≠
      (Envelope.create w content cls q).1.transactionID := by
  refine ⟨rfl, rfl, rfl, rfl, ?_, ?_⟩
  · show w.st.state.transaction_id + 1 + 1 = w.st.state.transaction_id + 2
    ring
  · show w.st.state.transaction_id + 1 + 1 ≠ w.st.state.transaction_id + 1
    omega

end ChFiling
